import Mathlib

/-!
# Health probes (`probes.go`)

A shallow embedding of the package `probes`: three atomic boolean health flags
(`startup`, `readiness`, `liveness`), the probe handlers that turn a flag into
an HTTP status, port validation, and the single-instance server lifecycle of
`RunServer`.

Package-level variables (`appState`, `running`, `server`) become the fields of
a record `World` that every operation takes and returns.  An `atomic.Bool` is
a `Bool` together with the three methods the package uses.  A Go `error`
interface value is an `Option error`, `none` being `nil`.
-/

namespace probes

/-! ## `sync/atomic`: the methods of `atomic.Bool` used by the package -/

/-- `(*atomic.Bool).Load`: the value held. -/
def atomicBool.Load (x : Bool) : Bool := x

/-- `(*atomic.Bool).Store`: the cell holds `val` afterwards. -/
def atomicBool.Store (_x : Bool) (val : Bool) : Bool := val

/-- `(*atomic.Bool).CompareAndSwap`: when the cell holds `old` it is set to
`new` and the call reports `true`; otherwise the cell is left alone and the
call reports `false`.  The result is the pair (cell afterwards, swapped). -/
def atomicBool.CompareAndSwap (x : Bool) (old new : Bool) : Bool × Bool :=
  if x = old then (new, true) else (x, false)

/-! ## The health state -/

/-- The struct `state`: three independent atomic flags. -/
structure state where
  startup : Bool
  readiness : Bool
  liveness : Bool
  deriving DecidableEq

/-- The zero value of `state` (what `var appState state` holds at process start). -/
def state.zero : state := ⟨false, false, false⟩

/-- `isStarted`: `s.startup.Load()`. -/
def state.isStarted (s : state) : Bool := atomicBool.Load s.startup

/-- `runStartup`: `s.startup.CompareAndSwap(false, true)`, result discarded. -/
def state.runStartup (s : state) : state :=
  { s with startup := (atomicBool.CompareAndSwap s.startup false true).1 }

/-- `isReady`: `s.readiness.Load()`. -/
def state.isReady (s : state) : Bool := atomicBool.Load s.readiness

/-- First statement of `ready`: `s.startup.CompareAndSwap(false, true)`. -/
def state.readyStartup (s : state) : state :=
  { s with startup := (atomicBool.CompareAndSwap s.startup false true).1 }

/-- Second statement of `ready`: `s.readiness.Store(v)`. -/
def state.readyStore (s : state) (v : Bool) : state :=
  { s with readiness := atomicBool.Store s.readiness v }

/-- `ready(v)`: the compare-and-swap on `startup`, then the store to
`readiness`, in this order and for either value of `v`. -/
def state.ready (s : state) (v : Bool) : state :=
  (s.readyStartup).readyStore v

/-- `isLive`: `s.liveness.Load()`. -/
def state.isLive (s : state) : Bool := atomicBool.Load s.liveness

/-- `live(v)`: `s.liveness.Store(v)`. -/
def state.live (s : state) (v : Bool) : state :=
  { s with liveness := atomicBool.Store s.liveness v }

/-! ## Errors -/

/-- Go error values met by the package.

* `errorString addr s` is the pointer returned by one call of `errors.New(s)`;
  `addr` stands for the identity of that pointer, so two calls with the same
  text give different values.  It has neither `Unwrap` nor `Is`.
* `Errorf format err args` is the value returned by
  `fmt.Errorf(format, ...)` where `format` holds one `%w` verb whose operand is
  `err`, and `args` are the integer operands of the other verbs; `Unwrap`
  gives back `err`. -/
inductive error
  | errorString (addr : Nat) (s : String)
  | Errorf (format : String) (err : error) (args : List Int)
  deriving DecidableEq

/-- Package variable `errInvalidPort = errors.New("invalid http port")`. -/
def errInvalidPort : error := .errorString 0 "invalid http port"

/-- Package variable `errAlreadyRunning = errors.New("http server is already running")`. -/
def errAlreadyRunning : error := .errorString 1 "http server is already running"

/-- The sentinel `http.ErrServerClosed = errors.New("http: Server closed")`. -/
def ErrServerClosed : error := .errorString 2 "http: Server closed"

/-- The loop of `errors.is` for comparable targets: `err == target`, else
follow `Unwrap` until the chain ends. -/
def errors.is : error → error → Bool
  | .errorString addr s, target => decide (error.errorString addr s = target)
  | .Errorf format err args, target =>
      decide (error.Errorf format err args = target) || errors.is err target

/-- `errors.Is(err, target)`: with a `nil` on either side the answer is
`err == target`; otherwise the chain of `err` is searched for `target`. -/
def errors.Is (err target : Option error) : Bool :=
  match err, target with
  | some e, some t => errors.is e t
  | none, none => true
  | _, _ => false

/-- `validatePort`: `nil` when `port > 0 && port < 65536`, otherwise
`fmt.Errorf("%w: %q", errInvalidPort, port)`. -/
def validatePort (port : Int) : Option error :=
  if port > 0 ∧ port < 65536 then none
  else some (.Errorf "%w: %q" errInvalidPort [port])

/-! ## `net/http`: response writers, handlers, mux, server -/

/-- `http.StatusOK`. -/
def StatusOK : Int := 200

/-- `http.StatusServiceUnavailable`. -/
def StatusServiceUnavailable : Int := 503

/-- One method call made on an `http.ResponseWriter`. -/
inductive ResponseWriterCall
  | Header
  | Write (p : List Nat)
  | WriteHeader (statusCode : Int)
  deriving DecidableEq

/-- An `http.ResponseWriter`, seen as the calls made on it so far, oldest first. -/
structure ResponseWriter where
  calls : List ResponseWriterCall
  deriving DecidableEq

/-- The method `WriteHeader(statusCode)`. -/
def ResponseWriter.WriteHeader (w : ResponseWriter) (statusCode : Int) : ResponseWriter :=
  { calls := w.calls ++ [.WriteHeader statusCode] }

/-- The status a response carries: that of the first `WriteHeader` call, and
`200` when the handler returns without one (as `httptest.ResponseRecorder.Code`). -/
def ResponseWriter.Code (w : ResponseWriter) : Int :=
  match w.calls.filterMap (fun c => match c with | .WriteHeader n => some n | _ => none) with
  | n :: _ => n
  | [] => 200

/-- The parts of an `*http.Request` a handler could look at. -/
structure Request where
  Method : String
  Path : String
  deriving DecidableEq

/-- An `http.HandlerFunc` whose closure reads an environment of type `σ`. -/
abbrev HandlerFunc (σ : Type) : Type := σ → ResponseWriter → Request → ResponseWriter

/-- `probeHandler(stateFn)`: the returned handler calls `stateFn` and writes
`http.StatusOK` when it answers `true`, `http.StatusServiceUnavailable` when it
answers `false`; the request is not looked at. -/
def probeHandler {σ : Type} (stateFn : σ → Bool) : HandlerFunc σ :=
  fun env w _ =>
    if stateFn env then w.WriteHeader StatusOK
    else w.WriteHeader StatusServiceUnavailable

/-- An `http.ServeMux`: the registered patterns with their handlers, in
registration order.  The handlers of this package close over `appState`. -/
structure ServeMux where
  entries : List (String × HandlerFunc state)

/-- `http.NewServeMux()`. -/
def NewServeMux : ServeMux := ⟨[]⟩

/-- `mux.HandleFunc(pattern, handler)`. -/
def ServeMux.HandleFunc (mux : ServeMux) (pattern : String) (handler : HandlerFunc state) :
    ServeMux :=
  ⟨mux.entries ++ [(pattern, handler)]⟩

/-- The handler a request path is routed to.  The patterns registered by the
package have no method, no host, no wildcard and no trailing slash, so a
pattern matches the paths equal to it. -/
def ServeMux.lookup (mux : ServeMux) (path : String) : Option (HandlerFunc state) :=
  (mux.entries.find? (fun e => e.1 == path)).map (fun e => e.2)

/-- `time.Second`, a `time.Duration` counted in nanoseconds. -/
def time.Second : Int := 1000000000

/-- `strconv.Itoa`. -/
def strconv.Itoa (i : Int) : String :=
  if i < 0 then "-" ++ Nat.repr i.natAbs else Nat.repr i.natAbs

/-- The fields of `http.Server` the package sets. -/
structure Server where
  Addr : String
  Handler : Option ServeMux
  ReadTimeout : Int
  WriteTimeout : Int
  IdleTimeout : Int

/-- The zero value of `http.Server`. -/
def Server.zero : Server := ⟨"", none, 0, 0, 0⟩

/-! ## Package variables and the exported functions -/

/-- The package-level variables `appState`, `running` and `server`, and
`listened`, a ghost variable: the configurations with which
`server.ListenAndServe()` has been called, oldest first. -/
structure World where
  appState : state
  running : Bool
  server : Server
  listened : List Server

/-- The package variables at process start. -/
def World.init : World := ⟨state.zero, false, Server.zero, []⟩

/-- A call of `server.ListenAndServe()`: it blocks, and when it returns it has
an error value and the package variables are as the rest of the program left
them meanwhile. -/
abbrev Listener : Type := World → Option error × World

/-- The mux built by `RunServer` (lines 44-47). -/
def RunServer.mux : ServeMux :=
  ((NewServeMux.HandleFunc "/startup" (probeHandler state.isStarted)).HandleFunc
    "/ready" (probeHandler state.isReady)).HandleFunc "/live" (probeHandler state.isLive)

/-- Lines 43-58 of `RunServer`, run once the guard is passed: the address and
mux are built, `server` is assigned, liveness is forced to `true`.  The result
is the package state with which `server.ListenAndServe()` is called. -/
def RunServer.serving (host : String) (port : Int) (w : World) : World :=
  let address := host ++ ":" ++ strconv.Itoa port
  let mux := RunServer.mux
  let timeout := 3 * time.Second
  let w1 : World := { w with server :=
    { Addr := address, Handler := some mux, ReadTimeout := timeout,
      WriteTimeout := timeout, IdleTimeout := -1 } }
  let w2 : World := { w1 with appState := w1.appState.live true }
  { w2 with listened := w2.listened ++ [w2.server] }

/-- Lines 60-64 of `RunServer`: the value returned for the error `err` that
`server.ListenAndServe()` gave. -/
def RunServer.result (err : Option error) : Option error :=
  if err ≠ none ∧ ¬ errors.Is err (some ErrServerClosed) = true then
    match err with
    | some e => some (.Errorf "failed to start server: %w" e [])
    | none => none
  else none

/-- `RunServer(host, port)`: port validation, the compare-and-swap guard on
`running`, the server set-up, the blocking listener call, and on the way out
the deferred `running.Store(false)`; the deferred call is registered after the
guard, so a rejected call does not run it. -/
def RunServer (host : String) (port : Int) (ListenAndServe : Listener) (w : World) :
    Option error × World :=
  match validatePort port with
  | some err => (some err, w)
  | none =>
    let cas := atomicBool.CompareAndSwap w.running false true
    let w1 : World := { w with running := cas.1 }
    if cas.2 = false then (some errAlreadyRunning, w1)
    else
      let r := ListenAndServe (RunServer.serving host port w1)
      (RunServer.result r.1, { r.2 with running := atomicBool.Store r.2.running false })

/-- `Startup()`. -/
def Startup (w : World) : World := { w with appState := w.appState.runStartup }

/-- `Ready()`. -/
def Ready (w : World) : World := { w with appState := w.appState.ready true }

/-- `Unready()`. -/
def Unready (w : World) : World := { w with appState := w.appState.ready false }

/-- `Live()`. -/
def Live (w : World) : World := { w with appState := w.appState.live true }

/-- `Unlive()`. -/
def Unlive (w : World) : World := { w with appState := w.appState.live false }

/-! ## Sequences of calls -/

/-- One call of an exported function, made while no other call is in progress.
For `RunServer` the call carries the error its listener returns. -/
inductive Call
  | Startup
  | Ready
  | Unready
  | Live
  | Unlive
  | RunServer (host : String) (port : Int) (outcome : Option error)
  deriving DecidableEq

/-- The calls that only touch the health state. -/
def Call.isStateCall : Call → Bool
  | .RunServer _ _ _ => false
  | _ => true

/-- The calls whose body runs the compare-and-swap on `startup`. -/
def Call.swapsStartup : Call → Bool
  | .Startup => true
  | .Ready => true
  | .Unready => true
  | _ => false

/-- The package variables after one call. -/
def Call.apply : Call → World → World
  | .Startup, w => probes.Startup w
  | .Ready, w => probes.Ready w
  | .Unready, w => probes.Unready w
  | .Live, w => probes.Live w
  | .Unlive, w => probes.Unlive w
  | .RunServer host port outcome, w => (probes.RunServer host port (fun x => (outcome, x)) w).2

/-- The package variables after a sequence of calls, made one after the other. -/
def runCalls (cs : List Call) (w : World) : World :=
  cs.foldl (fun x c => c.apply x) w

/-! ## Error messages: `Error()`, `fmt` and `strconv`

The table behind `strconv.IsPrint` for runes above `0xFF` belongs to the Go
library, not to the package; it is taken as a parameter `wide`. -/

/-- `utf8.MaxRune`. -/
def utf8.MaxRune : Nat := 0x10FFFF

/-- `utf8.RuneError`. -/
def utf8.RuneError : Nat := 0xFFFD

/-- `utf8.ValidRune`: in range and not a surrogate half. -/
def utf8.ValidRune (r : Nat) : Bool :=
  if r < 0xD800 then true
  else if 0xDFFF < r ∧ r ≤ utf8.MaxRune then true
  else false

/-- `strconv.IsPrint`: the Latin-1 fast path, then the table. -/
def strconv.IsPrint (wide : Nat → Bool) (r : Nat) : Bool :=
  if r ≤ 0xFF then
    if 0x20 ≤ r ∧ r ≤ 0x7E then true
    else if 0xA1 ≤ r ∧ r ≤ 0xFF then decide (r ≠ 0xAD)
    else false
  else wide r

/-- One digit of `strconv`'s `lowerhex`, for the low four bits of `n`. -/
def strconv.lowerhex (n : Nat) : Char := Nat.digitChar (n % 16)

/-- `strconv.appendEscapedRune` with `ASCIIonly` and `graphicOnly` false: the
characters written for the rune `r` inside quotes `quote`. -/
def strconv.appendEscapedRune (wide : Nat → Bool) (r : Nat) (quote : Char) : List Char :=
  if r = quote.toNat ∨ r = 0x5C then ['\\', Char.ofNat r]
  else if strconv.IsPrint wide r then [Char.ofNat r]
  else if r = 7 then ['\\', 'a']
  else if r = 8 then ['\\', 'b']
  else if r = 12 then ['\\', 'f']
  else if r = 10 then ['\\', 'n']
  else if r = 13 then ['\\', 'r']
  else if r = 9 then ['\\', 't']
  else if r = 11 then ['\\', 'v']
  else if r < 0x20 ∨ r = 0x7F then ['\\', 'x', strconv.lowerhex (r / 16), strconv.lowerhex r]
  else
    let r1 := if utf8.ValidRune r then r else utf8.RuneError
    if r1 < 0x10000 then
      ['\\', 'u'] ++ [12, 8, 4, 0].map (fun s => strconv.lowerhex (r1 / 2 ^ s))
    else
      ['\\', 'U'] ++ [28, 24, 20, 16, 12, 8, 4, 0].map (fun s => strconv.lowerhex (r1 / 2 ^ s))

/-- `strconv.AppendQuoteRune`: a single-quoted Go character literal. -/
def strconv.AppendQuoteRune (wide : Nat → Bool) (r : Nat) : List Char :=
  let r1 := if utf8.ValidRune r then r else utf8.RuneError
  ['\''] ++ strconv.appendEscapedRune wide r1 '\'' ++ ['\'']

/-- The verb `%q` applied to an `int`: `fmtQc(uint64(v))`, which quotes the
rune with that code point, `utf8.RuneError` when the value exceeds
`utf8.MaxRune` (as every negative `int` does once converted). -/
def fmt.fmtQc (wide : Nat → Bool) (v : Int) : List Char :=
  let c := (v % 2 ^ 64).toNat
  let r := if c > utf8.MaxRune then utf8.RuneError else c
  strconv.AppendQuoteRune wide r

/-- The formatting loop of `fmt.Errorf` for the verbs the package uses:
`%w` prints the message of the wrapped error, `%q` prints the next integer
operand with `fmtQc`, every other character is copied.  The flag says that the
character before was the `%` that opens a verb. -/
def fmt.doPrintf (wide : Nat → Bool) (wrapped : List Char) :
    List Char → Bool → List Int → List Char
  | [], false, _ => []
  | [], true, _ => "%!(NOVERB)".data
  | c :: rest, false, args =>
      if c = '%' then fmt.doPrintf wide wrapped rest true args
      else c :: fmt.doPrintf wide wrapped rest false args
  | c :: rest, true, args =>
      if c = 'w' then wrapped ++ fmt.doPrintf wide wrapped rest false args
      else if c = 'q' then
        match args with
        | a :: more => fmt.fmtQc wide a ++ fmt.doPrintf wide wrapped rest false more
        | [] => "%!q(MISSING)".data ++ fmt.doPrintf wide wrapped rest false []
      else '%' :: c :: fmt.doPrintf wide wrapped rest false args

/-- The method `Error()`: the text of an `errors.New` value, the formatted
message of a `fmt.Errorf` value. -/
def error.Error (wide : Nat → Bool) : error → String
  | .errorString _ s => s
  | .Errorf format err args =>
      String.mk (fmt.doPrintf wide (err.Error wide).data format.data false args)

/-! ## Interleaved calls: `RunServer` step by step, and `Shutdown` -/

/-- Where a `RunServer` invocation stands: at line 33 (`entry`), at the
compare-and-swap of line 37 (`guard`), past the guard with lines 41-58 to run
(`setup`), blocked in `server.ListenAndServe()` (`listening`), back from it
with the listener's error and about to return (`leaving`), or returned. -/
inductive Pc
  | entry
  | guard
  | setup
  | listening
  | leaving (err : Option error)
  | returned (res : Option error)
  deriving DecidableEq

/-- A `RunServer(host, port)` invocation in progress; `outcome` is the error
its listener returns if it stops by itself. -/
structure Invocation where
  host : String
  port : Int
  outcome : Option error
  pc : Pc
  deriving DecidableEq

/-- An invocation that has just been called. -/
def Invocation.call (host : String) (port : Int) (outcome : Option error) : Invocation :=
  ⟨host, port, outcome, .entry⟩

/-- The invocation is past the guard and has not yet run its deferred
`running.Store(false)`. -/
def Invocation.pastGuard (t : Invocation) : Bool :=
  match t.pc with
  | .setup => true
  | .listening => true
  | .leaving _ => true
  | _ => false

/-- One step of a `RunServer` invocation on the package variables: port
validation; the compare-and-swap on `running`; lines 43-58 and the call of the
listener; the listener stopping by itself; the return with the deferred
`running.Store(false)`.  A returned invocation does nothing. -/
def Invocation.step (t : Invocation) (w : World) : Invocation × World :=
  match t.pc with
  | .entry =>
    match validatePort t.port with
    | some err => ({ t with pc := .returned (some err) }, w)
    | none => ({ t with pc := .guard }, w)
  | .guard =>
    let cas := atomicBool.CompareAndSwap w.running false true
    let w1 : World := { w with running := cas.1 }
    if cas.2 = false then ({ t with pc := .returned (some errAlreadyRunning) }, w1)
    else ({ t with pc := .setup }, w1)
  | .setup => ({ t with pc := .listening }, RunServer.serving t.host t.port w)
  | .listening => ({ t with pc := .leaving t.outcome }, w)
  | .leaving err =>
    ({ t with pc := .returned (RunServer.result err) },
      { w with running := atomicBool.Store w.running false })
  | .returned _ => (t, w)

/-- Two `RunServer` invocations and the package variables they share. -/
structure System where
  first : Invocation
  second : Invocation
  vars : World

/-- What `server.Shutdown(ctx)` does to an invocation: a listener that is
serving is closed, so its `ListenAndServe` returns `http.ErrServerClosed`. -/
def Invocation.closeListener (t : Invocation) : Invocation :=
  match t.pc with
  | .listening => { t with pc := .leaving (some ErrServerClosed) }
  | _ => t

/-- `Shutdown(ctx)`: `return server.Shutdown(ctx)`.  `res` is what
`server.Shutdown(ctx)` answers (`nil`, or the error of `ctx` when the deadline
passes first); no package variable is written. -/
def Shutdown (res : Option error) (c : System) : Option error × System :=
  (res, { c with first := c.first.closeListener, second := c.second.closeListener })

/-- What can happen next in a system: a step of the first invocation, a step
of the second, or a call of `Shutdown` that runs to completion. -/
inductive Event
  | first
  | second
  | Shutdown (res : Option error)
  deriving DecidableEq

/-- The system after one event. -/
def System.next (c : System) : Event → System
  | .first => { c with first := (c.first.step c.vars).1, vars := (c.first.step c.vars).2 }
  | .second => { c with second := (c.second.step c.vars).1, vars := (c.second.step c.vars).2 }
  | .Shutdown res => (probes.Shutdown res c).2

/-- The system after a sequence of events, that is, one interleaving. -/
def System.run (es : List Event) (c : System) : System :=
  es.foldl System.next c

/-! ## Shared lemmas -/

theorem validatePort_eq_none_iff (port : Int) :
    validatePort port = none ↔ 1 ≤ port ∧ port ≤ 65535 := by
  unfold validatePort
  constructor
  · intro h
    by_cases hp : port > 0 ∧ port < 65536
    · omega
    · rw [if_neg hp] at h
      cases h
  · intro h
    rw [if_pos (by omega)]

theorem validatePort_of_invalid (port : Int) (h : ¬ (1 ≤ port ∧ port ≤ 65535)) :
    validatePort port = some (.Errorf "%w: %q" errInvalidPort [port]) := by
  unfold validatePort
  rw [if_neg (by omega)]

/-! ## Probe handlers and port validation -/

/-- C1: for every health state, response writer and request, the handlers the
mux of `RunServer` holds for `/startup`, `/ready` and `/live` make exactly one
call on the writer, `WriteHeader(200)` when `isStarted()`, `isReady()`,
`isLive()` respectively is true and `WriteHeader(503)` otherwise; that mux is
the handler of the server that listens; and for every `stateFn` the handler
`probeHandler(stateFn)` makes the single call `WriteHeader(200)` when
`stateFn()` is true and `WriteHeader(503)` when it is false, which on a fresh
writer gives the response status 200, respectively 503. -/
theorem C1_probe_status_by_flag (s : state) (w : ResponseWriter) (r : Request) :
    (∃ h, RunServer.mux.lookup "/startup" = some h ∧
      h s w r = ⟨w.calls ++ [.WriteHeader (if s.isStarted = true then 200 else 503)]⟩) ∧
    (∃ h, RunServer.mux.lookup "/ready" = some h ∧
      h s w r = ⟨w.calls ++ [.WriteHeader (if s.isReady = true then 200 else 503)]⟩) ∧
    (∃ h, RunServer.mux.lookup "/live" = some h ∧
      h s w r = ⟨w.calls ++ [.WriteHeader (if s.isLive = true then 200 else 503)]⟩) ∧
    (∀ (host : String) (port : Int) (x : World),
      (RunServer.serving host port x).server.Handler = some RunServer.mux) ∧
    (∀ (σ : Type) (stateFn : σ → Bool) (env : σ),
      probeHandler stateFn env w r
        = ⟨w.calls ++ [.WriteHeader (if stateFn env = true then 200 else 503)]⟩ ∧
      (probeHandler stateFn env ⟨[]⟩ r).Code = (if stateFn env = true then 200 else 503)) := by
  refine ⟨⟨probeHandler state.isStarted, rfl, ?_⟩, ⟨probeHandler state.isReady, rfl, ?_⟩,
    ⟨probeHandler state.isLive, rfl, ?_⟩, fun _ _ _ => rfl, ?_⟩
  · cases hb : s.isStarted <;>
      simp [probeHandler, hb, ResponseWriter.WriteHeader, StatusOK, StatusServiceUnavailable]
  · cases hb : s.isReady <;>
      simp [probeHandler, hb, ResponseWriter.WriteHeader, StatusOK, StatusServiceUnavailable]
  · cases hb : s.isLive <;>
      simp [probeHandler, hb, ResponseWriter.WriteHeader, StatusOK, StatusServiceUnavailable]
  · intro σ stateFn env
    cases hb : stateFn env <;>
      simp [probeHandler, hb, ResponseWriter.WriteHeader, ResponseWriter.Code, StatusOK,
        StatusServiceUnavailable]

/-- C2: for every integer `port`, `validatePort(port)` returns `nil` if and
only if `1 <= port <= 65535`, and the value it returns satisfies
`errors.Is(err, errInvalidPort)` if and only if `port` is outside that range;
in particular it does for the ports 0, -1 and 65536. -/
theorem C2_validatePort_range (port : Int) :
    (validatePort port = none ↔ 1 ≤ port ∧ port ≤ 65535) ∧
    (errors.Is (validatePort port) (some errInvalidPort) = true ↔
      ¬ (1 ≤ port ∧ port ≤ 65535)) ∧
    errors.Is (validatePort 0) (some errInvalidPort) = true ∧
    errors.Is (validatePort (-1)) (some errInvalidPort) = true ∧
    errors.Is (validatePort 65536) (some errInvalidPort) = true := by
  refine ⟨validatePort_eq_none_iff port, ?_, by decide, by decide, by decide⟩
  by_cases hp : 1 ≤ port ∧ port ≤ 65535
  · rw [(validatePort_eq_none_iff port).2 hp]
    simp [errors.Is, hp]
  · rw [validatePort_of_invalid port hp]
    simp [errors.Is, errors.is, errInvalidPort, hp]

/-! ## The health flags -/

theorem CompareAndSwap_false_true (x : Bool) :
    (atomicBool.CompareAndSwap x false true).1 = true := by
  cases x <;> rfl

theorem runStartup_eq (s : state) : s.runStartup = { s with startup := true } := by
  simp [state.runStartup, CompareAndSwap_false_true]

theorem ready_eq (s : state) (v : Bool) :
    s.ready v = { startup := true, readiness := v, liveness := s.liveness } := by
  simp [state.ready, state.readyStartup, state.readyStore, atomicBool.Store,
    CompareAndSwap_false_true]

/-- C3, as stated, fails: in the initial state `isStarted()` is false, and
after `Unready()` it is true. -/
theorem C3_unready_starts_counterexample :
    World.init.appState.isStarted = false ∧
    (Unready World.init).appState.isStarted = true ∧
    ¬ ((Unready World.init).appState.isStarted = World.init.appState.isStarted) := by
  decide

/-- C3, amended: for every state of the package variables, `Unready()` leaves
`isReady()` false and `isStarted()` true (so a started process stays started
and a process that was not started becomes started), `isLive()` returns what
it returned before, and `running`, `server` and the listener record are
untouched; the same holds of `state.ready(false)` on every health state. -/
theorem C3_unready_frame (w : World) (s : state) :
    (Unready w).appState.isReady = false ∧
    (Unready w).appState.isStarted = true ∧
    (Unready w).appState.isLive = w.appState.isLive ∧
    Unready w = { w with appState := ⟨true, false, w.appState.liveness⟩ } ∧
    (s.ready false).isReady = false ∧
    (s.ready false).isStarted = true ∧
    (s.ready false).isLive = s.isLive := by
  simp [Unready, ready_eq, state.isReady, state.isStarted, state.isLive, atomicBool.Load]

/-- C4: for every health state and every boolean `v`, after `state.ready(v)`
`isReady()` returns `v` and `isLive()` returns what it returned before; after
`state.ready(true)`, and so after `Ready()`, `isStarted()` returns true. -/
theorem C4_ready_sets_readiness (s : state) (v : Bool) (w : World) :
    (s.ready v).isReady = v ∧
    (s.ready v).isLive = s.isLive ∧
    (s.ready true).isStarted = true ∧
    (Ready w).appState.isReady = true ∧
    (Ready w).appState.isStarted = true ∧
    (Ready w).appState.isLive = w.appState.isLive := by
  simp [Ready, ready_eq, state.isReady, state.isStarted, state.isLive, atomicBool.Load]

/-- C7: for every state of the package variables, after `Startup()`
`isStarted()` is true, a second `Startup()` changes nothing, `isReady()` and
`isLive()` return what they returned before and nothing but the startup flag
is written; the same holds of `state.runStartup` on every health state. -/
theorem C7_startup_idempotent (w : World) (s : state) :
    (Startup w).appState.isStarted = true ∧
    Startup (Startup w) = Startup w ∧
    (Startup w).appState.isReady = w.appState.isReady ∧
    (Startup w).appState.isLive = w.appState.isLive ∧
    Startup w = { w with appState := { w.appState with startup := true } } ∧
    s.runStartup.isStarted = true ∧
    s.runStartup.runStartup = s.runStartup ∧
    s.runStartup.isReady = s.isReady ∧
    s.runStartup.isLive = s.isLive := by
  simp [Startup, runStartup_eq, state.isReady, state.isStarted, state.isLive, atomicBool.Load]

/-- C8: for every health state and every boolean `v`, after `state.live(v)`
`isLive()` returns `v` and the startup and readiness flags are as before;
`Live()` is `live(true)` and `Unlive()` is `live(false)` on `appState`, and
they write nothing but the liveness flag. -/
theorem C8_live_sets_liveness (s : state) (v : Bool) (w : World) :
    (s.live v).isLive = v ∧
    (s.live v).isStarted = s.isStarted ∧
    (s.live v).isReady = s.isReady ∧
    s.live v = { s with liveness := v } ∧
    Live w = { w with appState := { w.appState with liveness := true } } ∧
    Unlive w = { w with appState := { w.appState with liveness := false } } ∧
    (Live w).appState.isLive = true ∧
    (Unlive w).appState.isLive = false := by
  simp [Live, Unlive, state.live, state.isReady, state.isStarted, state.isLive,
    atomicBool.Load, atomicBool.Store]

/-! ## `RunServer`: the three ways through it -/

theorem RunServer_invalid (host : String) (port : Int) (L : Listener) (w : World)
    (h : ¬ (1 ≤ port ∧ port ≤ 65535)) :
    RunServer host port L w = (some (.Errorf "%w: %q" errInvalidPort [port]), w) := by
  simp [RunServer, validatePort_of_invalid port h]

theorem RunServer_rejected (host : String) (port : Int) (L : Listener) (w : World)
    (h : 1 ≤ port ∧ port ≤ 65535) (hrun : w.running = true) :
    RunServer host port L w = (some errAlreadyRunning, w) := by
  cases w with
  | mk a r sv ls =>
    simp only at hrun
    subst hrun
    simp [RunServer, (validatePort_eq_none_iff port).2 h, atomicBool.CompareAndSwap]

theorem RunServer_passed (host : String) (port : Int) (L : Listener) (w : World)
    (h : 1 ≤ port ∧ port ≤ 65535) (hrun : w.running = false) :
    RunServer host port L w =
      (RunServer.result (L (RunServer.serving host port { w with running := true })).1,
        { (L (RunServer.serving host port { w with running := true })).2 with
          running := false }) := by
  cases w with
  | mk a r sv ls =>
    simp only at hrun
    subst hrun
    simp [RunServer, (validatePort_eq_none_iff port).2 h, atomicBool.CompareAndSwap,
      atomicBool.Store]

theorem serving_appState (host : String) (port : Int) (w : World) :
    (RunServer.serving host port w).appState = w.appState.live true := rfl

theorem serving_running (host : String) (port : Int) (w : World) :
    (RunServer.serving host port w).running = w.running := rfl

/-- A `RunServer` call that runs alone writes no flag of the health state but
liveness. -/
theorem RunServer_alone_appState (host : String) (port : Int) (o : Option error) (w : World) :
    (RunServer host port (fun x => (o, x)) w).2.appState.startup = w.appState.startup ∧
    (RunServer host port (fun x => (o, x)) w).2.appState.readiness = w.appState.readiness := by
  by_cases h : 1 ≤ port ∧ port ≤ 65535
  · cases hrun : w.running
    · rw [RunServer_passed host port _ w h hrun]
      exact ⟨rfl, rfl⟩
    · rw [RunServer_rejected host port _ w h hrun]
      exact ⟨rfl, rfl⟩
  · rw [RunServer_invalid host port _ w h]
    exact ⟨rfl, rfl⟩

theorem apply_startup (c : Call) (w : World) :
    (c.apply w).appState.startup = (w.appState.startup || c.swapsStartup) := by
  cases c with
  | RunServer host port o =>
    simp [Call.apply, Call.swapsStartup, (RunServer_alone_appState host port o w).1]
  | Startup => simp [Call.apply, Call.swapsStartup, Startup, runStartup_eq]
  | Ready => simp [Call.apply, Call.swapsStartup, Ready, ready_eq]
  | Unready => simp [Call.apply, Call.swapsStartup, Unready, ready_eq]
  | Live => simp [Call.apply, Call.swapsStartup, Live, state.live]
  | Unlive => simp [Call.apply, Call.swapsStartup, Unlive, state.live]

theorem runCalls_startup (cs : List Call) (w : World) :
    (runCalls cs w).appState.startup = (w.appState.startup || cs.any Call.swapsStartup) := by
  induction cs generalizing w with
  | nil => simp [runCalls]
  | cons c cs ih =>
    have step : runCalls (c :: cs) w = runCalls cs (c.apply w) := rfl
    rw [step, ih, apply_startup, List.any_cons, Bool.or_assoc]

theorem any_swapsStartup (cs : List Call) :
    cs.any Call.swapsStartup = true ↔
      (Call.Startup ∈ cs ∨ Call.Ready ∈ cs ∨ Call.Unready ∈ cs) := by
  rw [List.any_eq_true]
  constructor
  · rintro ⟨c, hc, hs⟩
    cases c <;> simp_all [Call.swapsStartup]
  · rintro (h | h | h)
    · exact ⟨_, h, rfl⟩
    · exact ⟨_, h, rfl⟩
    · exact ⟨_, h, rfl⟩

/-! ## Startup over sequences of calls -/

/-- C5: in every state of the package variables in which `isStarted()` is
true, `isStarted()` is true after any one call of `Startup`, `Ready`,
`Unready`, `Live`, `Unlive` or `RunServer` (any host, any port, any error from
the listener), and after every finite sequence of such calls. -/
theorem C5_startup_monotonic (w : World) (h : w.appState.isStarted = true) :
    (∀ c : Call, (c.apply w).appState.isStarted = true) ∧
    (∀ cs : List Call, (runCalls cs w).appState.isStarted = true) := by
  have hs : w.appState.startup = true := h
  constructor
  · intro c
    show (c.apply w).appState.startup = true
    rw [apply_startup, hs, Bool.true_or]
  · intro cs
    show (runCalls cs w).appState.startup = true
    rw [runCalls_startup, hs, Bool.true_or]

/-- C5 at a concrete input: the process is started by `Startup()`, and stays
started through `Unready`, `Unlive`, a `RunServer` call on an invalid port and
a `RunServer` call whose listener fails. -/
theorem C5_startup_monotonic_witness :
    (Startup World.init).appState.isStarted = true ∧
    (runCalls [Call.Unready, Call.Unlive, Call.RunServer "localhost" 0 none,
        Call.RunServer "localhost" 8080 (some (error.errorString 7 "bind: address already in use"))]
      (Startup World.init)).appState.isStarted = true :=
  ⟨by decide, (C5_startup_monotonic (Startup World.init) (by decide)).2 _⟩

/-- C6, as stated, fails: the one-call sequence `Unready()` holds neither a
`Startup()` nor a `Ready()` call, and after it `isStarted()` is true. -/
theorem C6_started_by_unready_counterexample :
    ¬ ((runCalls [Call.Unready] World.init).appState.isStarted = true ↔
        (Call.Startup ∈ [Call.Unready] ∨ Call.Ready ∈ [Call.Unready])) := by
  decide

/-- C6, amended: starting from the initial (all-false) health state, after
every finite sequence of calls to `Startup`, `Ready`, `Unready`, `Live` and
`Unlive` (and `RunServer` calls, if any are mixed in) `isStarted()` is true if
and only if the sequence holds at least one `Startup()`, `Ready()` or
`Unready()` call; so it is false until the first such call and true from then
on. -/
theorem C6_started_iff_swapped (cs : List Call) :
    (runCalls cs World.init).appState.isStarted = true ↔
      (Call.Startup ∈ cs ∨ Call.Ready ∈ cs ∨ Call.Unready ∈ cs) := by
  show (runCalls cs World.init).appState.startup = true ↔ _
  rw [runCalls_startup, ← any_swapsStartup]
  simp [World.init, state.zero]

/-! ## The running flag -/

theorem apply_running (c : Call) (w : World) (hrun : w.running = true) :
    (c.apply w).running = true := by
  cases c with
  | RunServer host port o =>
    by_cases h : 1 ≤ port ∧ port ≤ 65535
    · simp [Call.apply, RunServer_rejected host port _ w h hrun, hrun]
    · simp [Call.apply, RunServer_invalid host port _ w h, hrun]
  | Startup => exact hrun
  | Ready => exact hrun
  | Unready => exact hrun
  | Live => exact hrun
  | Unlive => exact hrun

theorem runCalls_running (cs : List Call) (w : World) (hrun : w.running = true) :
    (runCalls cs w).running = true := by
  induction cs generalizing w with
  | nil => exact hrun
  | cons c cs ih => exact ih (c.apply w) (apply_running c w hrun)

theorem result_ne_errAlreadyRunning (e : Option error) :
    RunServer.result e ≠ some errAlreadyRunning := by
  unfold RunServer.result
  split
  · cases e with
    | none => simp
    | some x => simp [errAlreadyRunning]
  · simp

/-- C9: for every host, every port in 1..65535 and every listener, a
`RunServer` call made while `running` is true returns `errAlreadyRunning` and
leaves the package variables as they were: `running` is still true, the three
health flags, the stored `server` and the record of listener calls are
unchanged (no listener was started). -/
theorem C9_already_running (host : String) (port : Int) (L : Listener) (w : World)
    (hport : 1 ≤ port ∧ port ≤ 65535) (hrun : w.running = true) :
    (RunServer host port L w).1 = some errAlreadyRunning ∧
    (RunServer host port L w).2 = w ∧
    (RunServer host port L w).2.running = true ∧
    (RunServer host port L w).2.appState = w.appState ∧
    (RunServer host port L w).2.listened = w.listened := by
  rw [RunServer_rejected host port L w hport hrun]
  exact ⟨rfl, rfl, hrun, rfl, rfl⟩

/-- C9 at a concrete input: a server is running after startup and readiness
were signalled; a second call on port 8080, whose listener would fail, is
rejected and changes nothing. -/
theorem C9_already_running_witness :
    ((1 : Int) ≤ 8080 ∧ (8080 : Int) ≤ 65535) ∧
    ({ Ready World.init with running := true } : World).running = true ∧
    (RunServer "localhost" 8080 (fun x => (some (error.errorString 7 "bind failed"), Unlive x))
        { Ready World.init with running := true }).1 = some errAlreadyRunning ∧
    (RunServer "localhost" 8080 (fun x => (some (error.errorString 7 "bind failed"), Unlive x))
        { Ready World.init with running := true }).2 = { Ready World.init with running := true } :=
  ⟨by decide, rfl,
    (C9_already_running "localhost" 8080 _ { Ready World.init with running := true }
      (by decide) rfl).1,
    (C9_already_running "localhost" 8080 _ { Ready World.init with running := true }
      (by decide) rfl).2.1⟩

/-- C10: for every host, every port in 1..65535 and every listener (whatever
error it returns and whatever happened to the package variables while it
ran), a `RunServer` call that finds `running` false calls the listener with
`running` true, the flag stays true under every sequence of calls made while
the listener runs, and it is false when `RunServer` returns; a `RunServer`
call made after that return does not return `errAlreadyRunning`, and with a
port in 1..65535 it reaches its own listener. -/
theorem C10_running_released (host : String) (port : Int) (L : Listener) (w : World)
    (hport : 1 ≤ port ∧ port ≤ 65535) (hrun : w.running = false) :
    (RunServer.serving host port { w with running := true }).running = true ∧
    (∀ cs : List Call,
      (runCalls cs (RunServer.serving host port { w with running := true })).running = true) ∧
    RunServer host port L w =
      (RunServer.result (L (RunServer.serving host port { w with running := true })).1,
        { (L (RunServer.serving host port { w with running := true })).2 with
          running := false }) ∧
    (RunServer host port L w).2.running = false ∧
    (∀ (host2 : String) (port2 : Int) (L2 : Listener),
      (RunServer host2 port2 L2 (RunServer host port L w).2).1 ≠ some errAlreadyRunning) ∧
    (∀ (host2 : String) (port2 : Int) (L2 : Listener), 1 ≤ port2 ∧ port2 ≤ 65535 →
      (RunServer host2 port2 L2 (RunServer host port L w).2).1 =
        RunServer.result (L2 (RunServer.serving host2 port2
          { (RunServer host port L w).2 with running := true })).1) := by
  have hfin : (RunServer host port L w).2.running = false := by
    rw [RunServer_passed host port L w hport hrun]
  refine ⟨rfl, fun cs => runCalls_running cs _ rfl,
    RunServer_passed host port L w hport hrun, hfin, ?_, ?_⟩
  · intro host2 port2 L2
    by_cases h2 : 1 ≤ port2 ∧ port2 ≤ 65535
    · rw [RunServer_passed host2 port2 L2 _ h2 hfin]
      exact result_ne_errAlreadyRunning _
    · rw [RunServer_invalid host2 port2 L2 _ h2]
      simp [errAlreadyRunning]
  · intro host2 port2 L2 h2
    rw [RunServer_passed host2 port2 L2 _ h2 hfin]

/-- C10 at a concrete input: on a fresh process a call on port 8080 whose
listener fails to bind releases the flag, and the next call, on the same host
and port, is not rejected as already running. -/
theorem C10_running_released_witness :
    ((1 : Int) ≤ 8080 ∧ (8080 : Int) ≤ 65535) ∧
    World.init.running = false ∧
    (RunServer "localhost" 8080 (fun x => (some (error.errorString 7 "bind failed"), x))
        World.init).2.running = false ∧
    (RunServer "localhost" 8080 (fun x => (some ErrServerClosed, x))
        (RunServer "localhost" 8080 (fun x => (some (error.errorString 7 "bind failed"), x))
          World.init).2).1 ≠ some errAlreadyRunning :=
  ⟨by decide, rfl,
    (C10_running_released "localhost" 8080 _ World.init (by decide) rfl).2.2.2.1,
    (C10_running_released "localhost" 8080 _ World.init (by decide) rfl).2.2.2.2.1 _ _ _⟩

/-! ## What `RunServer` returns -/

theorem errors_is_refl (e : error) : errors.is e e = true := by
  cases e <;> simp [errors.is]

theorem result_eq_none_iff (e : Option error) :
    RunServer.result e = none ↔ (e = none ∨ errors.Is e (some ErrServerClosed) = true) := by
  cases e with
  | none => simp [RunServer.result]
  | some x =>
    cases h : errors.Is (some x) (some ErrServerClosed) <;> simp [RunServer.result, h]

theorem result_of_failure (x : error)
    (h : errors.Is (some x) (some ErrServerClosed) = false) :
    RunServer.result (some x) = some (.Errorf "failed to start server: %w" x []) := by
  simp [RunServer.result, h]

theorem Error_failed_to_start (wide : Nat → Bool) (x : error) :
    (error.Errorf "failed to start server: %w" x []).Error wide
      = "failed to start server: " ++ x.Error wide := by
  apply String.ext
  simp [error.Error, fmt.doPrintf]

/-- C11: for a `RunServer` call with a port in 1..65535 that finds `running`
false, and `e` the error its listener returns: `RunServer` returns `nil` if
and only if `e` is `nil` or `errors.Is(e, http.ErrServerClosed)`; for every
other `e` it returns `fmt.Errorf("failed to start server: %w", e)`, for which
`errors.Is(result, e)` holds and whose message is `failed to start server: `
followed by the message of `e`. -/
theorem C11_listener_error_wrapped (host : String) (port : Int) (L : Listener) (w : World)
    (wide : Nat → Bool) (hport : 1 ≤ port ∧ port ≤ 65535) (hrun : w.running = false) :
    ((RunServer host port L w).1 = none ↔
      ((L (RunServer.serving host port { w with running := true })).1 = none ∨
        errors.Is (L (RunServer.serving host port { w with running := true })).1
          (some ErrServerClosed) = true)) ∧
    (∀ x : error, (L (RunServer.serving host port { w with running := true })).1 = some x →
      errors.Is (some x) (some ErrServerClosed) = false →
      (RunServer host port L w).1 = some (.Errorf "failed to start server: %w" x []) ∧
      errors.Is (RunServer host port L w).1 (some x) = true ∧
      (error.Errorf "failed to start server: %w" x []).Error wide
        = "failed to start server: " ++ x.Error wide) := by
  rw [RunServer_passed host port L w hport hrun]
  refine ⟨result_eq_none_iff _, ?_⟩
  intro x hx hnot
  have hr : RunServer.result (L (RunServer.serving host port { w with running := true })).1
      = some (.Errorf "failed to start server: %w" x []) := by
    rw [hx]
    exact result_of_failure x hnot
  refine ⟨hr, ?_, Error_failed_to_start wide x⟩
  show errors.Is (RunServer.result _) (some x) = true
  rw [hr]
  simp [errors.Is, errors.is, errors_is_refl]

/-- C11 at a concrete input: on a fresh process the listener of a call on port
8080 fails to bind; the call returns that error wrapped, with the message
prefixed. -/
theorem C11_listener_error_wrapped_witness :
    ((1 : Int) ≤ 8080 ∧ (8080 : Int) ≤ 65535) ∧
    World.init.running = false ∧
    (RunServer "localhost" 8080
        (fun x => (some (error.errorString 7 "listen tcp :8080: bind: address already in use"), x))
        World.init).1
      = some (.Errorf "failed to start server: %w"
          (error.errorString 7 "listen tcp :8080: bind: address already in use") []) ∧
    (error.Errorf "failed to start server: %w"
        (error.errorString 7 "listen tcp :8080: bind: address already in use") []).Error
        (fun _ => true)
      = "failed to start server: " ++
        (error.errorString 7 "listen tcp :8080: bind: address already in use").Error
          (fun _ => true) :=
  ⟨by decide, rfl,
    ((C11_listener_error_wrapped "localhost" 8080 _ World.init (fun _ => true) (by decide)
      rfl).2 _ rfl (by decide)).1,
    ((C11_listener_error_wrapped "localhost" 8080
      (fun x => (some (error.errorString 7 "listen tcp :8080: bind: address already in use"), x))
      World.init (fun _ => true) (by decide) rfl).2 _ rfl (by decide)).2.2⟩

/-- C12: for every host, every port outside 1..65535, every listener and every
prior state of the package variables, `running` true included, `RunServer`
returns the error of `validatePort`, which satisfies
`errors.Is(err, errInvalidPort)` and is not `errAlreadyRunning`, and leaves
`running`, the three health flags, `server` and the record of listener calls
as they were. -/
theorem C12_invalid_port_first (host : String) (port : Int) (L : Listener) (w : World)
    (hport : ¬ (1 ≤ port ∧ port ≤ 65535)) :
    (RunServer host port L w).1 = validatePort port ∧
    errors.Is (RunServer host port L w).1 (some errInvalidPort) = true ∧
    (RunServer host port L w).1 ≠ some errAlreadyRunning ∧
    (RunServer host port L w).2 = w := by
  rw [RunServer_invalid host port L w hport, validatePort_of_invalid port hport]
  refine ⟨rfl, ?_, ?_, rfl⟩
  · simp [errors.Is, errors.is, errInvalidPort]
  · simp [errAlreadyRunning]

/-- C12 at a concrete input: port 65536 while a server is running. -/
theorem C12_invalid_port_first_witness :
    ¬ ((1 : Int) ≤ 65536 ∧ (65536 : Int) ≤ 65535) ∧
    errors.Is (RunServer "localhost" 65536 (fun x => (none, Unlive x))
        { Ready World.init with running := true }).1 (some errInvalidPort) = true ∧
    (RunServer "localhost" 65536 (fun x => (none, Unlive x))
        { Ready World.init with running := true }).1 ≠ some errAlreadyRunning ∧
    (RunServer "localhost" 65536 (fun x => (none, Unlive x))
        { Ready World.init with running := true }).2 = { Ready World.init with running := true } :=
  ⟨by decide,
    (C12_invalid_port_first "localhost" 65536 _ { Ready World.init with running := true }
      (by decide)).2⟩

/-! ## Liveness and the listener configuration -/

/-- C13: the three flags are false in the initial health state; for every
prior state, a `RunServer` call with a port in 1..65535 that finds `running`
false calls its listener with liveness true and startup and readiness as they
were, and when the call has returned (whatever error the listener gave)
liveness is true and startup and readiness are as they were; so on a fresh
process with a listening server and no state calls the handlers of `/startup`
and `/ready` answer 503 and the handler of `/live` answers 200. -/
theorem C13_liveness_forced (host : String) (port : Int) (L : Listener) (w : World)
    (o : Option error) (r : Request)
    (hport : 1 ≤ port ∧ port ≤ 65535) (hrun : w.running = false) :
    (World.init.appState.isStarted = false ∧ World.init.appState.isReady = false ∧
      World.init.appState.isLive = false) ∧
    (RunServer.serving host port { w with running := true }).appState
      = { w.appState with liveness := true } ∧
    RunServer host port L w =
      (RunServer.result (L (RunServer.serving host port { w with running := true })).1,
        { (L (RunServer.serving host port { w with running := true })).2 with
          running := false }) ∧
    (RunServer host port (fun x => (o, x)) w).2.appState = { w.appState with liveness := true } ∧
    (RunServer.serving host port { World.init with running := true }).server.Handler
      = some RunServer.mux ∧
    (RunServer.mux.lookup "/startup").map (fun h =>
      (h (RunServer.serving host port { World.init with running := true }).appState ⟨[]⟩ r).Code)
      = some 503 ∧
    (RunServer.mux.lookup "/ready").map (fun h =>
      (h (RunServer.serving host port { World.init with running := true }).appState ⟨[]⟩ r).Code)
      = some 503 ∧
    (RunServer.mux.lookup "/live").map (fun h =>
      (h (RunServer.serving host port { World.init with running := true }).appState ⟨[]⟩ r).Code)
      = some 200 := by
  refine ⟨by decide, rfl, RunServer_passed host port L w hport hrun, ?_, rfl, rfl, rfl, rfl⟩
  rw [RunServer_passed host port _ w hport hrun]
  rfl

/-- C13 at a concrete input: the process called `Unlive()`, then `RunServer`
on port 8080, whose listener fails to bind; liveness is true afterwards. -/
theorem C13_liveness_forced_witness :
    ((1 : Int) ≤ 8080 ∧ (8080 : Int) ≤ 65535) ∧
    (Unlive World.init).running = false ∧
    (RunServer "localhost" 8080 (fun x => (some (error.errorString 7 "bind failed"), x))
        (Unlive World.init)).2.appState
      = { (Unlive World.init).appState with liveness := true } :=
  ⟨by decide, rfl,
    (C13_liveness_forced "localhost" 8080 (fun x => (none, x)) (Unlive World.init)
      (some (error.errorString 7 "bind failed")) ⟨"GET", "/live"⟩ (by decide) rfl).2.2.2.1⟩

/-- C14, evaluated on the code: whatever the table of printable runes, the
message of `validatePort(65536)` is `invalid http port: ` followed by the
quoted rune U+10000 (the character itself, or its `\U` escape), and the
message of `validatePort(-1)` is `invalid http port: ` followed by the quoted
rune U+FFFD (the character itself, or its `\u` escape); neither message
contains the decimal representation of the port. -/
theorem C14_message_quotes_rune (wide : Nat → Bool) :
    validatePort 65536 = some (.Errorf "%w: %q" errInvalidPort [65536]) ∧
    (error.Errorf "%w: %q" errInvalidPort [65536]).Error wide
      = (if wide 0x10000 = true
          then String.mk ("invalid http port: '".data ++ [Char.ofNat 0x10000] ++ ['\''])
          else "invalid http port: '\\U00010000'") ∧
    ¬ ((strconv.Itoa 65536).data <:+:
        ((error.Errorf "%w: %q" errInvalidPort [65536]).Error wide).data) ∧
    validatePort (-1) = some (.Errorf "%w: %q" errInvalidPort [-1]) ∧
    (error.Errorf "%w: %q" errInvalidPort [-1]).Error wide
      = (if wide 0xFFFD = true
          then String.mk ("invalid http port: '".data ++ [Char.ofNat 0xFFFD] ++ ['\''])
          else "invalid http port: '\\ufffd'") ∧
    ¬ ((strconv.Itoa (-1)).data <:+:
        ((error.Errorf "%w: %q" errInvalidPort [-1]).Error wide).data) := by
  have h1 : (error.Errorf "%w: %q" errInvalidPort [65536]).Error wide
      = (if wide 0x10000 = true
          then String.mk ("invalid http port: '".data ++ [Char.ofNat 0x10000] ++ ['\''])
          else "invalid http port: '\\U00010000'") := by
    cases h : wide 0x10000
    · simp [error.Error, fmt.doPrintf, errInvalidPort, fmt.fmtQc, strconv.AppendQuoteRune,
        strconv.appendEscapedRune, strconv.IsPrint, utf8.ValidRune, utf8.MaxRune,
        utf8.RuneError, h, strconv.lowerhex]
      decide
    · simp [error.Error, fmt.doPrintf, errInvalidPort, fmt.fmtQc, strconv.AppendQuoteRune,
        strconv.appendEscapedRune, strconv.IsPrint, utf8.ValidRune, utf8.MaxRune,
        utf8.RuneError, h, strconv.lowerhex]
  have h2 : (error.Errorf "%w: %q" errInvalidPort [-1]).Error wide
      = (if wide 0xFFFD = true
          then String.mk ("invalid http port: '".data ++ [Char.ofNat 0xFFFD] ++ ['\''])
          else "invalid http port: '\\ufffd'") := by
    cases h : wide 0xFFFD
    · simp [error.Error, fmt.doPrintf, errInvalidPort, fmt.fmtQc, strconv.AppendQuoteRune,
        strconv.appendEscapedRune, strconv.IsPrint, utf8.ValidRune, utf8.MaxRune,
        utf8.RuneError, h, strconv.lowerhex]
      decide
    · simp [error.Error, fmt.doPrintf, errInvalidPort, fmt.fmtQc, strconv.AppendQuoteRune,
        strconv.appendEscapedRune, strconv.IsPrint, utf8.ValidRune, utf8.MaxRune,
        utf8.RuneError, h, strconv.lowerhex]
  refine ⟨by decide, h1, ?_, by decide, h2, ?_⟩
  · rw [h1]
    cases wide 0x10000 <;> decide
  · rw [h2]
    cases wide 0xFFFD <;> decide

/-- C19: for every host and every port in 1..65535, a `RunServer` call that
finds `running` false calls its listener with `server` configured so: the
address is the host, a colon and the decimal digits of the port; read and
write timeouts are both 3 seconds (3000000000 ns); the idle timeout is -1,
hence negative; the handler is a mux whose patterns are exactly `/startup`,
`/ready` and `/live`; and this configuration is the one recorded as listened
on. -/
theorem C19_listener_configuration (host : String) (port : Int) (L : Listener) (w : World)
    (hport : 1 ≤ port ∧ port ≤ 65535) (hrun : w.running = false) :
    RunServer host port L w =
      (RunServer.result (L (RunServer.serving host port { w with running := true })).1,
        { (L (RunServer.serving host port { w with running := true })).2 with
          running := false }) ∧
    (RunServer.serving host port { w with running := true }).server.Addr
      = host ++ ":" ++ Nat.repr port.toNat ∧
    (RunServer.serving host port { w with running := true }).server.ReadTimeout
      = 3 * time.Second ∧
    (RunServer.serving host port { w with running := true }).server.WriteTimeout
      = 3 * time.Second ∧
    3 * time.Second = 3000000000 ∧
    (RunServer.serving host port { w with running := true }).server.IdleTimeout = -1 ∧
    (RunServer.serving host port { w with running := true }).server.IdleTimeout < 0 ∧
    (RunServer.serving host port { w with running := true }).server.Handler.map
        (fun m => m.entries.map (fun e => e.1))
      = some ["/startup", "/ready", "/live"] ∧
    (RunServer.serving host port { w with running := true }).listened
      = w.listened ++ [(RunServer.serving host port { w with running := true }).server] := by
  have hrepr : strconv.Itoa port = Nat.repr port.toNat := by
    unfold strconv.Itoa
    rw [if_neg (by omega)]
    congr 1
    omega
  have hidle : (RunServer.serving host port { w with running := true }).server.IdleTimeout
      = -1 := rfl
  refine ⟨RunServer_passed host port L w hport hrun, ?_, rfl, rfl, by decide, hidle, ?_,
    rfl, rfl⟩
  · show host ++ ":" ++ strconv.Itoa port = _
    rw [hrepr]
  · rw [hidle]
    decide

/-- C19 at a concrete input: host `localhost`, port 8080 on a fresh process
gives the address `localhost:8080`. -/
theorem C19_listener_configuration_witness :
    ((1 : Int) ≤ 8080 ∧ (8080 : Int) ≤ 65535) ∧
    World.init.running = false ∧
    (RunServer.serving "localhost" 8080 { World.init with running := true }).server.Addr
      = "localhost" ++ ":" ++ Nat.repr (8080 : Int).toNat ∧
    "localhost" ++ ":" ++ Nat.repr (8080 : Int).toNat = "localhost:8080" :=
  ⟨by decide, rfl,
    (C19_listener_configuration "localhost" 8080 (fun x => (none, x)) World.init (by decide)
      rfl).2.1,
    by decide⟩

/-! ## Readiness and startup together -/

theorem apply_ready_started (c : Call) (w : World)
    (h : w.appState.readiness = true → w.appState.startup = true) :
    (c.apply w).appState.readiness = true → (c.apply w).appState.startup = true := by
  cases c with
  | RunServer host port o =>
    simp only [Call.apply, (RunServer_alone_appState host port o w).1,
      (RunServer_alone_appState host port o w).2]
    exact h
  | Startup => simp [Call.apply, Startup, runStartup_eq]
  | Ready => simp [Call.apply, Ready, ready_eq]
  | Unready => simp [Call.apply, Unready, ready_eq]
  | Live => simpa [Call.apply, Live, state.live] using h
  | Unlive => simpa [Call.apply, Unlive, state.live] using h

theorem runCalls_ready_started (cs : List Call) (w : World)
    (h : w.appState.readiness = true → w.appState.startup = true) :
    (runCalls cs w).appState.readiness = true → (runCalls cs w).appState.startup = true := by
  induction cs generalizing w with
  | nil => exact h
  | cons c cs ih => exact ih (c.apply w) (apply_ready_started c w h)

/-- C17: in every state reached from the initial all-false state by a finite
sequence of `Startup`, `Ready`, `Unready`, `Live`, `Unlive` and `RunServer`
calls, if `isReady()` is true then `isStarted()` is true, so that the handler
of `/startup` answers 200 whenever the handler of `/ready` does. -/
theorem C17_ready_implies_started (cs : List Call) (r : Request)
    (hready : (runCalls cs World.init).appState.isReady = true) :
    (runCalls cs World.init).appState.isStarted = true ∧
    (probeHandler state.isReady (runCalls cs World.init).appState ⟨[]⟩ r).Code = 200 ∧
    (probeHandler state.isStarted (runCalls cs World.init).appState ⟨[]⟩ r).Code = 200 := by
  have hs : (runCalls cs World.init).appState.isStarted = true :=
    runCalls_ready_started cs World.init (by decide) hready
  refine ⟨hs, ?_, ?_⟩
  · simp [probeHandler, hready, ResponseWriter.WriteHeader, ResponseWriter.Code, StatusOK]
  · simp [probeHandler, hs, ResponseWriter.WriteHeader, ResponseWriter.Code, StatusOK]

/-- C17 at a concrete input: after `Live`, `Ready`, `Unlive` and a `RunServer`
call whose listener was shut down, the process is ready, and started. -/
theorem C17_ready_implies_started_witness :
    (runCalls [Call.Live, Call.Ready, Call.Unlive,
        Call.RunServer "localhost" 8080 (some ErrServerClosed)] World.init).appState.isReady
      = true ∧
    (runCalls [Call.Live, Call.Ready, Call.Unlive,
        Call.RunServer "localhost" 8080 (some ErrServerClosed)] World.init).appState.isStarted
      = true :=
  ⟨by decide, (C17_ready_implies_started _ ⟨"GET", "/ready"⟩ (by decide)).1⟩

/-- C18, as stated, fails: there is no reachable health state for which the
state between the two updates of `ready` has readiness true and startup
false, because the first of the two updates is the one that sets startup. -/
theorem C18_window_counterexample :
    ¬ ∃ cs : List Call,
      (runCalls cs World.init).appState.readyStartup.isReady = true ∧
      (runCalls cs World.init).appState.readyStartup.isStarted = false := by
  rintro ⟨cs, -, h⟩
  simp [state.readyStartup, state.isStarted, atomicBool.Load, CompareAndSwap_false_true] at h

/-- C18, amended: `state.ready(v)` is two separate atomic updates, the
compare-and-swap on startup first and the store to readiness second; for
every reachable health state the state between the two has startup true,
readiness and liveness as before the call, and never readiness true with
startup false; from the initial state the state in the window is startup
true, readiness false, which is neither the state before `ready(true)` nor
the state after it. -/
theorem C18_window_startup_first (cs : List Call) (v : Bool) :
    (runCalls cs World.init).appState.ready v
      = ((runCalls cs World.init).appState.readyStartup).readyStore v ∧
    (runCalls cs World.init).appState.readyStartup.isStarted = true ∧
    (runCalls cs World.init).appState.readyStartup.isReady
      = (runCalls cs World.init).appState.isReady ∧
    (runCalls cs World.init).appState.readyStartup.isLive
      = (runCalls cs World.init).appState.isLive ∧
    ((runCalls cs World.init).appState.readyStartup.isReady &&
      !(runCalls cs World.init).appState.readyStartup.isStarted) = false ∧
    World.init.appState.readyStartup = ⟨true, false, false⟩ ∧
    World.init.appState.readyStartup ≠ World.init.appState ∧
    World.init.appState.readyStartup ≠ World.init.appState.ready true := by
  refine ⟨rfl, ?_, rfl, rfl, ?_, by decide, by decide, by decide⟩
  · simp [state.readyStartup, state.isStarted, atomicBool.Load, CompareAndSwap_false_true]
  · simp [state.readyStartup, state.isStarted, atomicBool.Load, CompareAndSwap_false_true]

/-! ## Interleavings of two `RunServer` calls -/

/-- Run alone, the steps of an invocation give what `RunServer` gives. -/
theorem run_alone_eq_RunServer (host : String) (port : Int) (o : Option error)
    (other : Invocation) (w : World) :
    (System.run [.first, .first, .first, .first, .first]
        ⟨Invocation.call host port o, other, w⟩).first.pc
      = .returned (RunServer host port (fun x => (o, x)) w).1 ∧
    (System.run [.first, .first, .first, .first, .first]
        ⟨Invocation.call host port o, other, w⟩).vars
      = (RunServer host port (fun x => (o, x)) w).2 ∧
    (System.run [.first, .first, .first, .first, .first]
        ⟨Invocation.call host port o, other, w⟩).second = other := by
  obtain ⟨a, r, sv, ls⟩ := w
  by_cases h : 1 ≤ port ∧ port ≤ 65535
  · have hv := (validatePort_eq_none_iff port).2 h
    cases r
    · rw [RunServer_passed host port _ _ h rfl]
      simp [System.run, System.next, Invocation.step, Invocation.call, hv,
        atomicBool.CompareAndSwap, atomicBool.Store]
    · rw [RunServer_rejected host port _ _ h rfl]
      simp [System.run, System.next, Invocation.step, Invocation.call, hv,
        atomicBool.CompareAndSwap]
  · rw [RunServer_invalid host port _ _ h]
    simp [System.run, System.next, Invocation.step, Invocation.call,
      validatePort_of_invalid port h]

/-- One step of an invocation keeps the guard's invariant: `running` is true
exactly when one of the two invocations is past the guard, and they are never
both past it. -/
theorem step_keeps_guard (t other : Invocation) (w : World)
    (hflag : w.running = (t.pastGuard || other.pastGuard))
    (hexcl : (t.pastGuard && other.pastGuard) = false) :
    (t.step w).2.running = ((t.step w).1.pastGuard || other.pastGuard) ∧
    ((t.step w).1.pastGuard && other.pastGuard) = false := by
  obtain ⟨host, port, o, pc⟩ := t
  obtain ⟨a, r, sv, ls⟩ := w
  cases pc with
  | entry =>
    cases hv : validatePort port <;>
      simp_all [Invocation.step, Invocation.pastGuard]
  | guard =>
    cases hb : other.pastGuard <;>
      simp_all [Invocation.step, Invocation.pastGuard, atomicBool.CompareAndSwap]
  | setup =>
    cases hb : other.pastGuard <;>
      simp_all [Invocation.step, Invocation.pastGuard, serving_running]
  | listening =>
    cases hb : other.pastGuard <;> simp_all [Invocation.step, Invocation.pastGuard]
  | leaving e =>
    cases hb : other.pastGuard <;>
      simp_all [Invocation.step, Invocation.pastGuard, atomicBool.Store]
  | returned e =>
    cases hb : other.pastGuard <;> simp_all [Invocation.step, Invocation.pastGuard]

theorem closeListener_pastGuard (t : Invocation) :
    t.closeListener.pastGuard = t.pastGuard := by
  obtain ⟨host, port, o, pc⟩ := t
  cases pc <;> rfl

theorem next_keeps_guard (c : System) (e : Event)
    (hflag : c.vars.running = (c.first.pastGuard || c.second.pastGuard))
    (hexcl : (c.first.pastGuard && c.second.pastGuard) = false) :
    (c.next e).vars.running = ((c.next e).first.pastGuard || (c.next e).second.pastGuard) ∧
    ((c.next e).first.pastGuard && (c.next e).second.pastGuard) = false := by
  cases e with
  | first => exact step_keeps_guard c.first c.second c.vars hflag hexcl
  | second =>
    have h := step_keeps_guard c.second c.first c.vars
      (by rw [hflag, Bool.or_comm]) (by rw [Bool.and_comm, hexcl])
    exact ⟨by rw [Bool.or_comm]; exact h.1, by rw [Bool.and_comm]; exact h.2⟩
  | Shutdown res =>
    simp only [System.next, Shutdown, closeListener_pastGuard]
    exact ⟨hflag, hexcl⟩

theorem run_keeps_guard (es : List Event) (c : System)
    (hflag : c.vars.running = (c.first.pastGuard || c.second.pastGuard))
    (hexcl : (c.first.pastGuard && c.second.pastGuard) = false) :
    (System.run es c).vars.running
      = ((System.run es c).first.pastGuard || (System.run es c).second.pastGuard) ∧
    ((System.run es c).first.pastGuard && (System.run es c).second.pastGuard) = false := by
  induction es generalizing c with
  | nil => exact ⟨hflag, hexcl⟩
  | cons e es ih =>
    exact ih (c.next e) (next_keeps_guard c e hflag hexcl).1 (next_keeps_guard c e hflag hexcl).2

/-- At the guard with `running` true: rejected, nothing written. -/
theorem guard_step_rejected (t : Invocation) (w : World) (hpc : t.pc = .guard)
    (hrun : w.running = true) :
    (t.step w).1.pc = .returned (some errAlreadyRunning) ∧ (t.step w).2 = w := by
  obtain ⟨host, port, o, pc⟩ := t
  obtain ⟨a, r, sv, ls⟩ := w
  simp only at hpc hrun
  subst hpc hrun
  simp [Invocation.step, atomicBool.CompareAndSwap]

/-- At the guard with `running` false: past the guard, `running` set. -/
theorem guard_step_passed (t : Invocation) (w : World) (hpc : t.pc = .guard)
    (hrun : w.running = false) :
    (t.step w).1.pc = .setup ∧ (t.step w).2 = { w with running := true } := by
  obtain ⟨host, port, o, pc⟩ := t
  obtain ⟨a, r, sv, ls⟩ := w
  simp only at hpc hrun
  subst hpc hrun
  simp [Invocation.step, atomicBool.CompareAndSwap]

/-- C15, as stated, fails: two calls with valid ports are made on a fresh
process; the second validates its port and is then held up before its
compare-and-swap while the first passes the guard, fails to bind and returns;
the second then passes the guard too.  Both calls passed the guard and started
a listener, and neither returned `errAlreadyRunning`. -/
theorem C15_both_pass_counterexample :
    (System.run [.second, .first, .first]
      ⟨Invocation.call "0.0.0.0" 8080 (some (error.errorString 7 "bind failed")),
        Invocation.call "127.0.0.1" 9090 (some ErrServerClosed), World.init⟩).first.pc
      = .setup ∧
    (System.run [.second, .first, .first, .first, .first, .first, .second]
      ⟨Invocation.call "0.0.0.0" 8080 (some (error.errorString 7 "bind failed")),
        Invocation.call "127.0.0.1" 9090 (some ErrServerClosed), World.init⟩).second.pc
      = .setup ∧
    (System.run [.second, .first, .first, .first, .first, .first, .second, .second, .second,
        .second]
      ⟨Invocation.call "0.0.0.0" 8080 (some (error.errorString 7 "bind failed")),
        Invocation.call "127.0.0.1" 9090 (some ErrServerClosed), World.init⟩).first.pc
      = .returned (some (.Errorf "failed to start server: %w"
          (error.errorString 7 "bind failed") [])) ∧
    (System.run [.second, .first, .first, .first, .first, .first, .second, .second, .second,
        .second]
      ⟨Invocation.call "0.0.0.0" 8080 (some (error.errorString 7 "bind failed")),
        Invocation.call "127.0.0.1" 9090 (some ErrServerClosed), World.init⟩).second.pc
      = .returned none ∧
    (System.run [.second, .first, .first, .first, .first, .first, .second, .second, .second,
        .second]
      ⟨Invocation.call "0.0.0.0" 8080 (some (error.errorString 7 "bind failed")),
        Invocation.call "127.0.0.1" 9090 (some ErrServerClosed), World.init⟩).vars.listened.length
      = 2 := by
  refine ⟨by decide, by decide, by decide, by decide, by decide⟩

/-- C15, amended: two `RunServer` calls with ports in 1..65535 are made while
`running` is false; each reaches the compare-and-swap, and in every
interleaving of their steps (and of `Shutdown` calls) the two are never past
the guard together and `running` is true exactly while one of them is; a call
that runs its compare-and-swap while the other is past the guard and has not
returned gets `errAlreadyRunning` at that step and writes nothing, and a call
that runs it while the other is not past the guard passes it. -/
theorem C15_guard_excludes (host1 : String) (port1 : Int) (o1 : Option error)
    (host2 : String) (port2 : Int) (o2 : Option error) (w : World) (es : List Event)
    (hport1 : 1 ≤ port1 ∧ port1 ≤ 65535) (hport2 : 1 ≤ port2 ∧ port2 ≤ 65535)
    (hrun : w.running = false) :
    ((System.mk (Invocation.call host1 port1 o1) (Invocation.call host2 port2 o2) w).next
      .first).first.pc = .guard ∧
    ((System.mk (Invocation.call host1 port1 o1) (Invocation.call host2 port2 o2) w).next
      .second).second.pc = .guard ∧
    ((System.run es ⟨Invocation.call host1 port1 o1, Invocation.call host2 port2 o2,
        w⟩).first.pastGuard &&
      (System.run es ⟨Invocation.call host1 port1 o1, Invocation.call host2 port2 o2,
        w⟩).second.pastGuard) = false ∧
    (System.run es ⟨Invocation.call host1 port1 o1, Invocation.call host2 port2 o2,
        w⟩).vars.running
      = ((System.run es ⟨Invocation.call host1 port1 o1, Invocation.call host2 port2 o2,
          w⟩).first.pastGuard ||
        (System.run es ⟨Invocation.call host1 port1 o1, Invocation.call host2 port2 o2,
          w⟩).second.pastGuard) ∧
    (∀ c : System,
      c = System.run es ⟨Invocation.call host1 port1 o1, Invocation.call host2 port2 o2, w⟩ →
      (c.first.pc = .guard → c.second.pastGuard = true →
        (c.next .first).first.pc = .returned (some errAlreadyRunning) ∧
        (c.next .first).vars = c.vars) ∧
      (c.second.pc = .guard → c.first.pastGuard = true →
        (c.next .second).second.pc = .returned (some errAlreadyRunning) ∧
        (c.next .second).vars = c.vars) ∧
      (c.first.pc = .guard → c.second.pastGuard = false →
        (c.next .first).first.pc = .setup ∧ (c.next .first).vars.running = true) ∧
      (c.second.pc = .guard → c.first.pastGuard = false →
        (c.next .second).second.pc = .setup ∧ (c.next .second).vars.running = true)) := by
  have hinv := run_keeps_guard es
    ⟨Invocation.call host1 port1 o1, Invocation.call host2 port2 o2, w⟩
    (by simp [Invocation.call, Invocation.pastGuard, hrun]) rfl
  refine ⟨?_, ?_, hinv.2, hinv.1, ?_⟩
  · simp [System.next, Invocation.step, Invocation.call, (validatePort_eq_none_iff port1).2 hport1]
  · simp [System.next, Invocation.step, Invocation.call, (validatePort_eq_none_iff port2).2 hport2]
  · intro c hc
    subst hc
    refine ⟨?_, ?_, ?_, ?_⟩
    · intro hpc hother
      exact guard_step_rejected _ _ hpc (by rw [hinv.1, hother, Bool.or_true])
    · intro hpc hother
      exact guard_step_rejected _ _ hpc (by rw [hinv.1, hother, Bool.true_or])
    · intro hpc hother
      have hme : (System.run es ⟨Invocation.call host1 port1 o1, Invocation.call host2 port2 o2,
          w⟩).first.pastGuard = false := by
        simp [Invocation.pastGuard, hpc]
      have h := guard_step_passed _ _ hpc (by rw [hinv.1, hother, hme]; rfl)
      exact ⟨h.1, by show (Invocation.step _ _).2.running = true; rw [h.2]⟩
    · intro hpc hother
      have hme : (System.run es ⟨Invocation.call host1 port1 o1, Invocation.call host2 port2 o2,
          w⟩).second.pastGuard = false := by
        simp [Invocation.pastGuard, hpc]
      have h := guard_step_passed _ _ hpc (by rw [hinv.1, hother, hme]; rfl)
      exact ⟨h.1, by show (Invocation.step _ _).2.running = true; rw [h.2]⟩

/-- C15 (amended) at a concrete input: on a fresh process the first call has
passed the guard and the second stands at it; the second is rejected. -/
theorem C15_guard_excludes_witness :
    ((1 : Int) ≤ 8080 ∧ (8080 : Int) ≤ 65535) ∧
    ((1 : Int) ≤ 9090 ∧ (9090 : Int) ≤ 65535) ∧
    World.init.running = false ∧
    ((System.run [.first, .first, .second]
        ⟨Invocation.call "0.0.0.0" 8080 none, Invocation.call "127.0.0.1" 9090 none,
          World.init⟩).next .second).second.pc
      = .returned (some errAlreadyRunning) :=
  ⟨by decide, by decide, rfl,
    (((C15_guard_excludes "0.0.0.0" 8080 none "127.0.0.1" 9090 none World.init
      [.first, .first, .second] (by decide) (by decide) rfl).2.2.2.2 _ rfl).2.1
      (by decide) (by decide)).1⟩

/-- C16, as stated, fails: on a fresh process a `RunServer` call on
`localhost:8080` is serving; `Shutdown` is called and completes with `nil`.
At that moment `running` is still true, and a new `RunServer` call on the same
host and port is rejected with `errAlreadyRunning`. -/
theorem C16_shutdown_counterexample :
    (System.run [.first, .first, .first]
      ⟨Invocation.call "localhost" 8080 none, Invocation.call "localhost" 8080 none,
        World.init⟩).first.pc = .listening ∧
    (Shutdown none (System.run [.first, .first, .first]
      ⟨Invocation.call "localhost" 8080 none, Invocation.call "localhost" 8080 none,
        World.init⟩)).1 = none ∧
    (System.run [.first, .first, .first, .Shutdown none]
      ⟨Invocation.call "localhost" 8080 none, Invocation.call "localhost" 8080 none,
        World.init⟩).vars.running = true ∧
    (System.run [.first, .first, .first, .Shutdown none, .second, .second]
      ⟨Invocation.call "localhost" 8080 none, Invocation.call "localhost" 8080 none,
        World.init⟩).second.pc = .returned (some errAlreadyRunning) ∧
    (RunServer "localhost" 8080 (fun x => (none, x))
      (System.run [.first, .first, .first, .Shutdown none]
        ⟨Invocation.call "localhost" 8080 none, Invocation.call "localhost" 8080 none,
          World.init⟩).vars).1 = some errAlreadyRunning := by
  refine ⟨by decide, rfl, by decide, by decide, by decide⟩

theorem next_keeps_leaving (c : System) (e : Event) (x : Option error)
    (he : e ≠ Event.first) (h : c.first.pc = .leaving x) :
    (c.next e).first.pc = .leaving x := by
  cases e with
  | first => exact absurd rfl he
  | second => exact h
  | Shutdown res =>
    show c.first.closeListener.pc = .leaving x
    simp [Invocation.closeListener, h]

theorem run_keeps_leaving (es : List Event) (c : System) (x : Option error)
    (hes : ∀ e ∈ es, e ≠ Event.first) (h : c.first.pc = .leaving x) :
    (System.run es c).first.pc = .leaving x := by
  induction es generalizing c with
  | nil => exact h
  | cons e es ih =>
    exact ih (c.next e) (fun e2 h2 => hes e2 (List.mem_cons_of_mem e h2))
      (next_keeps_leaving c e x (hes e (List.mem_cons_self e es)) h)

/-- C16, amended: two `RunServer` calls are made while `running` is false, and
after some interleaving of their steps and of `Shutdown` calls the first is
serving (blocked in its listener).  Then `running` is true; `Shutdown(ctx)`
returns what `server.Shutdown(ctx)` returns, writes no package variable and
makes the listener return `http.ErrServerClosed`; between the completion of
`Shutdown` and the return of the serving `RunServer` call, whatever the other
call does and whatever further `Shutdown` calls are made, `running` is still
true and a `RunServer` call with a port in 1..65535 returns
`errAlreadyRunning`; once the serving call has returned, which it does with
`nil`, `running` is false and a new `RunServer` call, on any host and port,
does not return `errAlreadyRunning`. -/
theorem C16_released_on_return (host1 : String) (port1 : Int) (o1 : Option error)
    (host2 : String) (port2 : Int) (o2 : Option error) (w : World) (es : List Event)
    (c : System) (res : Option error)
    (hrun : w.running = false)
    (hc : c = System.run es ⟨Invocation.call host1 port1 o1, Invocation.call host2 port2 o2, w⟩)
    (hserving : c.first.pc = .listening) :
    (Shutdown res c).1 = res ∧
    (Shutdown res c).2.vars = c.vars ∧
    (Shutdown res c).2.first.pc = .leaving (some ErrServerClosed) ∧
    ((Shutdown res c).2.next .first).first.pc = .returned none ∧
    ((Shutdown res c).2.next .first).vars.running = false ∧
    (∀ (host : String) (port : Int) (L : Listener),
      (RunServer host port L ((Shutdown res c).2.next .first).vars).1
        ≠ some errAlreadyRunning) ∧
    c.vars.running = true ∧
    (Shutdown res c).2.vars.running = true ∧
    (∀ es2 : List Event, (∀ e ∈ es2, e ≠ Event.first) →
      (System.run es2 (Shutdown res c).2).first.pc = .leaving (some ErrServerClosed) ∧
      (System.run es2 (Shutdown res c).2).vars.running = true ∧
      (∀ (host : String) (port : Int) (L : Listener), 1 ≤ port ∧ port ≤ 65535 →
        RunServer host port L (System.run es2 (Shutdown res c).2).vars
          = (some errAlreadyRunning, (System.run es2 (Shutdown res c).2).vars))) := by
  have hinv : c.vars.running = (c.first.pastGuard || c.second.pastGuard) ∧
      (c.first.pastGuard && c.second.pastGuard) = false := by
    rw [hc]
    exact run_keeps_guard es _ (by simp [Invocation.call, Invocation.pastGuard, hrun]) rfl
  have hpast : c.first.pastGuard = true := by simp [Invocation.pastGuard, hserving]
  have hrunning : c.vars.running = true := by rw [hinv.1, hpast, Bool.true_or]
  have hleave : (Shutdown res c).2.first.pc = .leaving (some ErrServerClosed) := by
    show c.first.closeListener.pc = _
    simp [Invocation.closeListener, hserving]
  have hfin : ((Shutdown res c).2.next .first).vars.running = false := by
    show (Invocation.step (Shutdown res c).2.first (Shutdown res c).2.vars).2.running = false
    generalize (Shutdown res c).2.vars = v at *
    generalize (Shutdown res c).2.first = t at *
    obtain ⟨h, p, o, pc⟩ := t
    simp only at hleave
    subst hleave
    rfl
  have hret : ((Shutdown res c).2.next .first).first.pc = .returned none := by
    show (Invocation.step (Shutdown res c).2.first (Shutdown res c).2.vars).1.pc = _
    generalize (Shutdown res c).2.vars = v at *
    generalize (Shutdown res c).2.first = t at *
    obtain ⟨h, p, o, pc⟩ := t
    simp only at hleave
    subst hleave
    simp [Invocation.step, RunServer.result, errors.Is, errors_is_refl]
  refine ⟨rfl, rfl, hleave, hret, hfin, ?_, hrunning, hrunning, ?_⟩
  · intro host port L
    by_cases h : 1 ≤ port ∧ port ≤ 65535
    · rw [RunServer_passed host port L _ h hfin]
      exact result_ne_errAlreadyRunning _
    · rw [RunServer_invalid host port L _ h]
      simp [errAlreadyRunning]
  · intro es2 hes2
    have hafter := next_keeps_guard c (.Shutdown res) hinv.1 hinv.2
    have hinv2 := run_keeps_guard es2 (Shutdown res c).2 hafter.1 hafter.2
    have hl := run_keeps_leaving es2 (Shutdown res c).2 _ hes2 hleave
    have hr : (System.run es2 (Shutdown res c).2).vars.running = true := by
      rw [hinv2.1]
      simp [Invocation.pastGuard, hl]
    exact ⟨hl, hr, fun host port L hp => RunServer_rejected host port L _ hp hr⟩

/-- C16 (amended) at a concrete input: the server of a fresh process is shut
down; while the serving call has not returned, and the other call has run
its two steps, `running` is true; after the serving call has returned it is
false. -/
theorem C16_released_on_return_witness :
    World.init.running = false ∧
    (System.run [.first, .first, .first]
      ⟨Invocation.call "localhost" 8080 none, Invocation.call "localhost" 8080 none,
        World.init⟩).first.pc = .listening ∧
    (System.run [.second, .second] (Shutdown none (System.run [.first, .first, .first]
      ⟨Invocation.call "localhost" 8080 none, Invocation.call "localhost" 8080 none,
        World.init⟩)).2).vars.running = true ∧
    ((Shutdown none (System.run [.first, .first, .first]
      ⟨Invocation.call "localhost" 8080 none, Invocation.call "localhost" 8080 none,
        World.init⟩)).2.next .first).vars.running = false :=
  ⟨rfl, by decide,
    ((C16_released_on_return "localhost" 8080 none "localhost" 8080 none World.init
      [.first, .first, .first] _ none rfl rfl (by decide)).2.2.2.2.2.2.2.2
      [.second, .second] (by decide)).2.1,
    (C16_released_on_return "localhost" 8080 none "localhost" 8080 none World.init
      [.first, .first, .first] _ none rfl rfl (by decide)).2.2.2.2.1⟩

end probes
